import Mathlib

/-!
# Student resource API (`app.js`)

A shallow embedding of the six student route handlers of `app.js` and of the
SQL statements they send to the pool, followed by the properties proved about
them.

Every handler validates its request, sends at most one statement to the pool
and maps the outcome to a response.  A handler is therefore modelled as a value
of `Handler`: an immediate response, a thrown exception, or one statement with
its parameters and the continuation that turns the pool's outcome into the
response.
-/

namespace StudentApi

/-! ## JavaScript values -/

/-- JSON value as delivered by the JSON body parser.  Numbers are rationals:
the handlers only test a number for being zero. -/
inductive Json where
  | null
  | bool (b : Bool)
  | num (q : ℚ)
  | str (s : String)
  | arr (items : List Json)
  | obj (members : List (String × Json))

/-- JavaScript value of a destructured variable: `none` is `undefined`. -/
abbrev JsVal := Option Json

/-- Request body `req.body` after `bodyParser.json()`: an object or an array. -/
inductive Body where
  | object (members : List (String × Json))
  | array (items : List Json)

/-- Property read `body.key` as done by the destructuring
`const { FName, ... } = req.body`: `undefined` when the key is not there. -/
def Body.field : Body → String → JsVal
  | .object members, key => members.lookup key
  | .array _, _ => none

/-- The number `Object.keys(req.body).length`. -/
def Body.keyCount : Body → Nat
  | .object members => members.length
  | .array items => items.length

/-- JavaScript truthiness, the test behind `!x` and `x || y`. -/
def truthy : JsVal → Bool
  | none => false
  | some .null => false
  | some (.bool b) => b
  | some (.num q) => decide (q ≠ 0)
  | some (.str s) => decide (s ≠ "")
  | some (.arr _) => true
  | some (.obj _) => true

/-- The expression `x || null`. -/
def orNull (x : JsVal) : JsVal :=
  if truthy x then x else some .null

/-- Value of a query-string parameter in `req.query`. -/
inductive QueryVal where
  | str (s : String)
  | arr (items : List String)
  | obj (members : List (String × String))

/-- White space and line terminators removed by `String.prototype.trim`. -/
def isJsWhitespace (c : Char) : Bool :=
  let n := c.toNat
  (9 ≤ n && n ≤ 13) || n == 32 || n == 160 || n == 5760 || (8192 ≤ n && n ≤ 8202) ||
    n == 8232 || n == 8233 || n == 8239 || n == 8287 || n == 12288 || n == 65279

/-- Strip leading and trailing white space from a list of characters. -/
def trimChars (cs : List Char) : List Char :=
  ((cs.dropWhile isJsWhitespace).reverse.dropWhile isJsWhitespace).reverse

/-- The method `String.prototype.trim`. -/
def jsTrim (s : String) : String :=
  ⟨trimChars s.data⟩

/-- JavaScript `length` of a string: the number of UTF-16 code units. -/
def jsLength (s : String) : Nat :=
  (s.data.map (fun c => if c.toNat < 65536 then 1 else 2)).sum

/-! ## Rows, statements and responses -/

/-- SQL `date` value, kept as text. -/
abbrev SqlDate := String

/-- SQL `numeric` value. -/
abbrev SqlNumeric := ℚ

/-- Row of table `student` under the column aliases used by every statement;
`none` is SQL `NULL`. -/
structure Student where
  studentid : Int
  fname : Option String
  lname : Option String
  dob : Option SqlDate
  email : Option String
  address : Option String
  enrollment_score : Option SqlNumeric
  deriving DecidableEq

/-- The six statements the student handlers pass to `pool.query`. -/
inductive Sql where
  | selectAll
  | selectSearch
  | selectById
  | insertStudent
  | updateStudent
  | deleteStudent
  deriving DecidableEq

/-- Resolved value of `pool.query`: `result.rows` and `result.rowCount`. -/
structure PgResult where
  rows : List Student
  rowCount : Nat
  deriving DecidableEq

/-- Error a rejected `pool.query` raises: `err.code` and `err.message`, each
`none` when the property is `undefined`. -/
structure PgError where
  code : Option String
  message : Option String
  deriving DecidableEq

/-- JSON document passed to `res.json`. -/
inductive ResBody where
  | students (rows : List Student)
  | student (row : Option Student)
  | error (text : Option String)
  | message (text : String)
  deriving DecidableEq

/-- Response: status code and JSON body. -/
structure Response where
  status : Nat
  body : ResBody
  deriving DecidableEq

/-- What a handler does with a request. -/
inductive Handler where
  | respond (res : Response)
  | throws
  | query (sql : Sql) (params : List JsVal) (next : Except PgError PgResult → Response)

/-- Whether the handler sends a statement to the pool. -/
def Handler.issuesQuery : Handler → Bool
  | .query _ _ _ => true
  | _ => false

/-- The statement a handler sends to the pool, with its parameters. -/
def Handler.statement : Handler → Option (Sql × List JsVal)
  | .query sql params _ => some (sql, params)
  | _ => none

/-- The response sent before any statement, if there is one. -/
def Handler.immediate : Handler → Option Response
  | .respond res => some res
  | _ => none

/-- Response of a handler whose statement the pool answers with `out`; `none`
when the handler sent no statement. -/
def Handler.reply : Handler → Except PgError PgResult → Option Response
  | .query _ _ next, out => some (next out)
  | _, _ => none

/-! ## Route handlers -/

/-- Route `GET /api/students`. -/
def getStudents : Handler :=
  .query .selectAll [] fun out =>
    match out with
    | .ok result => ⟨200, .students result.rows⟩
    | .error _ => ⟨500, .error (some "Database error while fetching students")⟩

/-- Route `GET /api/students/search`, `name` being `req.query.name`. -/
def searchStudents (name : Option QueryVal) : Handler :=
  match name with
  | none => .respond ⟨400, .error (some "Name query parameter is required (min 2 characters)")⟩
  | some (.str s) =>
    if s = "" ∨ jsLength (jsTrim s) < 2 then
      .respond ⟨400, .error (some "Name query parameter is required (min 2 characters)")⟩
    else
      .query .selectSearch [some (.str ("%" ++ jsTrim s ++ "%"))] fun out =>
        match out with
        | .ok result => ⟨200, .students result.rows⟩
        | .error _ => ⟨500, .error (some "Search failed")⟩
  | some _ => .throws

/-- Route `GET /api/students/:id`. -/
def getStudent (id : String) : Handler :=
  .query .selectById [some (.str id)] fun out =>
    match out with
    | .ok result =>
      if result.rows.length = 0 then ⟨404, .error (some "Student not found")⟩
      else ⟨200, .student result.rows.head?⟩
    | .error _ => ⟨500, .error (some "Database error")⟩

/-- Route `POST /api/students`. -/
def postStudent (body : Body) : Handler :=
  let FName := body.field "FName"
  let Lname := body.field "Lname"
  let dob := body.field "dob"
  let Email := body.field "Email"
  let Address := body.field "Address"
  let enrollment_score := body.field "enrollment_score"
  if !truthy FName || !truthy Lname || !truthy Email then
    .respond ⟨400, .error (some "First name, last name and email are required")⟩
  else
    .query .insertStudent
      [FName, Lname, orNull dob, Email, orNull Address, orNull enrollment_score] fun out =>
        match out with
        | .ok result => ⟨201, .student result.rows.head?⟩
        | .error err =>
          if err.code = some "23505" then ⟨409, .error (some "Email already exists")⟩
          else
            ⟨400, .error (some (match err.message with
              | some m => if m = "" then "Failed to create student" else m
              | none => "Failed to create student"))⟩

/-- Route `PUT /api/students/:id`. -/
def putStudent (id : String) (body : Body) : Handler :=
  let FName := body.field "FName"
  let Lname := body.field "Lname"
  let dob := body.field "dob"
  let Email := body.field "Email"
  let Address := body.field "Address"
  let enrollment_score := body.field "enrollment_score"
  if body.keyCount = 0 then
    .respond ⟨400, .error (some "No fields provided to update")⟩
  else
    .query .updateStudent
      [FName, Lname, dob, Email, Address, enrollment_score, some (.str id)] fun out =>
        match out with
        | .ok result =>
          if result.rowCount = 0 then ⟨404, .error (some "Student not found")⟩
          else ⟨200, .student result.rows.head?⟩
        | .error err =>
          if err.code = some "23505" then ⟨409, .error (some "Email already in use")⟩
          else ⟨400, .error err.message⟩

/-- Route `DELETE /api/students/:id`. -/
def deleteStudent (id : String) : Handler :=
  .query .deleteStudent [some (.str id)] fun out =>
    match out with
    | .ok result =>
      if result.rowCount = 0 then ⟨404, .error (some "Student not found")⟩
      else ⟨200, .message "Student deleted successfully"⟩
    | .error err =>
      if err.code = some "23503" then
        ⟨409, .error (some "Cannot delete student — they are enrolled in programs or courses")⟩
      else ⟨500, .error (some "Failed to delete student")⟩

/-! ## The statements on a table

The database engine is outside the repository.  What it decides on its own is
collected in `Engine`; what the statement text of `app.js` decides (which
column receives which parameter, `COALESCE`, the `WHERE` clause, `ILIKE`,
`ORDER BY`, `LIMIT`) is defined below, over a table given as the list of its
rows. -/

/-- Behaviour of the driver and the engine that the statements rely on. -/
structure Engine where
  /-- conversion of a non-null parameter to a `text` column value -/
  toText : Json → Except PgError String
  /-- conversion of a non-null parameter by the cast `::date` -/
  toDate : Json → Except PgError SqlDate
  /-- conversion of a non-null parameter by the cast `::numeric` -/
  toNumeric : Json → Except PgError SqlNumeric
  /-- conversion of a non-null parameter compared with `student_id` -/
  toInt : Json → Except PgError Int
  /-- failure of a write that would turn the first table into the second
  (unique, not-null and other constraints of the schema) -/
  check : List Student → List Student → Option PgError
  /-- case folding used by `ILIKE` -/
  fold : Char → Char
  /-- collation order `a ≤ b` of the text columns -/
  le : String → String → Bool

/-- Parameter as the engine receives it: the driver sends `undefined` and
`null` as SQL `NULL`, anything else is converted to the column type. -/
def bindParam {α : Type} (cast : Json → Except PgError α) : JsVal → Except PgError (Option α)
  | none => .ok none
  | some .null => .ok none
  | some v => (cast v).map some

/-- SQL `COALESCE(a, b)`. -/
def coalesce {α : Type} : Option α → Option α → Option α
  | some a, _ => some a
  | none, b => b

/-- Bound parameters `$1` to `$7` of the `UPDATE` statement. -/
structure UpdateParams where
  first_name : Option String
  last_name : Option String
  dob : Option SqlDate
  email : Option String
  address : Option String
  enrollment_score : Option SqlNumeric
  student_id : Option Int
  deriving DecidableEq

/-- Binding of the seven parameters of the `UPDATE` statement. -/
def bindUpdate (E : Engine) (p1 p2 p3 p4 p5 p6 p7 : JsVal) : Except PgError UpdateParams := do
  let first_name ← bindParam E.toText p1
  let last_name ← bindParam E.toText p2
  let dob ← bindParam E.toDate p3
  let email ← bindParam E.toText p4
  let address ← bindParam E.toText p5
  let enrollment_score ← bindParam E.toNumeric p6
  let student_id ← bindParam E.toInt p7
  pure ⟨first_name, last_name, dob, email, address, enrollment_score, student_id⟩

/-- The `SET` clause of the `UPDATE` statement applied to one row. -/
def setClause (b : UpdateParams) (r : Student) : Student :=
  { studentid := r.studentid
    fname := coalesce b.first_name r.fname
    lname := coalesce b.last_name r.lname
    dob := coalesce b.dob r.dob
    email := coalesce b.email r.email
    address := coalesce b.address r.address
    enrollment_score := coalesce b.enrollment_score r.enrollment_score }

/-- The clause `WHERE student_id = $7`. -/
def whereId (b : UpdateParams) (r : Student) : Bool :=
  b.student_id == some r.studentid

/-- The `UPDATE ... RETURNING` statement on a table: the outcome handed to the
handler and the table afterwards. -/
def execUpdate (E : Engine) (table : List Student) (params : List JsVal) :
    Except PgError PgResult × List Student :=
  match params with
  | [p1, p2, p3, p4, p5, p6, p7] =>
    match bindUpdate E p1 p2 p3 p4 p5 p6 p7 with
    | .error err => (.error err, table)
    | .ok b =>
      let table' := table.map fun r => if whereId b r then setClause b r else r
      match E.check table table' with
      | some err => (.error err, table)
      | none =>
        let rows := (table.filter (whereId b)).map (setClause b)
        (.ok ⟨rows, rows.length⟩, table')
  | _ => (.error ⟨some "08P01", some "bind message supplies the wrong number of parameters"⟩, table)

/-- Route `PUT /api/students/:id` served from a table: the response and the
table afterwards. -/
def putStudentOn (E : Engine) (table : List Student) (id : String) (body : Body) :
    Option Response × List Student :=
  match putStudent id body with
  | .query _ params next =>
    let out := execUpdate E table params
    (some (next out.1), out.2)
  | h => (h.immediate, table)

/-- The wildcard `%` of a `LIKE` pattern. -/
def likeAny : Char := Char.ofNat 37

/-- The wildcard `_` of a `LIKE` pattern. -/
def likeOne : Char := Char.ofNat 95

/-- The escape character of a `LIKE` pattern, the backslash. -/
def likeEscape : Char := Char.ofNat 92

/-- Matching of a text against a `LIKE` pattern, characters compared after
case folding: `%` stands for any run of characters, `_` for any one character,
the escape character makes the next pattern character literal.  A pattern
ending in a lone escape character matches nothing; the search handler never
builds one, its patterns end in `%`. -/
def likeMatch (fold : Char → Char) : List Char → List Char → Bool
  | [], t => t.isEmpty
  | c :: p, t =>
    if c = likeAny then t.tails.any fun s => likeMatch fold p s
    else if c = likeOne then
      match t with
      | [] => false
      | _ :: t' => likeMatch fold p t'
    else if c = likeEscape then
      match p, t with
      | d :: p', x :: t' => fold d == fold x && likeMatch fold p' t'
      | _, _ => false
    else
      match t with
      | [] => false
      | x :: t' => fold c == fold x && likeMatch fold p t'

/-- The condition `column ILIKE $1`; it is not true on a `NULL` column. -/
def ilike (E : Engine) (column : Option String) (pattern : String) : Bool :=
  match column with
  | none => false
  | some text => likeMatch E.fold pattern.data text.data

/-- The clause `WHERE first_name ILIKE $1 OR last_name ILIKE $1`. -/
def whereName (E : Engine) (pattern : String) (r : Student) : Bool :=
  ilike E r.fname pattern || ilike E r.lname pattern

/-- Ascending order of a nullable text column, `NULL` last. -/
def columnLe (E : Engine) : Option String → Option String → Bool
  | _, none => true
  | none, some _ => false
  | some a, some b => E.le a b

/-- The order `ORDER BY last_name, first_name`: rows are compared by last name
and, when the last names rank equal, by first name. -/
def orderBy (E : Engine) (a b : Student) : Bool :=
  if columnLe E a.lname b.lname && columnLe E b.lname a.lname then columnLe E a.fname b.fname
  else columnLe E a.lname b.lname

/-- The search `SELECT` on a table. -/
def execSearch (E : Engine) (table : List Student) (params : List JsVal) :
    Except PgError PgResult :=
  match params with
  | [some (.str pattern)] =>
    let rows := ((table.filter (whereName E pattern)).insertionSort
      (fun a b => orderBy E a b = true)).take 50
    .ok ⟨rows, rows.length⟩
  | _ => .error ⟨some "08P01", some "bind message supplies the wrong number of parameters"⟩

/-- Route `GET /api/students/search` served from a table. -/
def searchStudentsOn (E : Engine) (table : List Student) (name : Option QueryVal) :
    Option Response :=
  match searchStudents name with
  | .query _ params next => some (next (execSearch E table params))
  | h => h.immediate

/-! ## The words of the specification -/

/-- Case-insensitive substring: `needle` occurs in `text` when both are
compared after case folding. -/
def containsFolded (fold : Char → Char) (needle text : List Char) : Prop :=
  needle.map fold <:+: text.map fold

/-- The search condition in the words of the specification: the name occurs,
ignoring case, in the first name or in the last name. -/
def nameOccurs (E : Engine) (name : String) (r : Student) : Prop :=
  (∃ text, r.fname = some text ∧ containsFolded E.fold name.data text.data) ∨
  (∃ text, r.lname = some text ∧ containsFolded E.fold name.data text.data)

/-- A name none of whose characters has a meaning in a `LIKE` pattern. -/
def wildcardFree (name : List Char) : Prop :=
  ∀ c ∈ name, c ≠ likeAny ∧ c ≠ likeOne ∧ c ≠ likeEscape

/-- Engine used in the examples: it accepts strings as text and dates, numbers
as numerics, decimal strings as row ids, and folds ASCII letters. -/
def sampleEngine : Engine where
  toText v := match v with
    | .str s => .ok s
    | _ => .error ⟨some "22P02", some "invalid input"⟩
  toDate v := match v with
    | .str s => .ok s
    | _ => .error ⟨some "22007", some "invalid input syntax for type date"⟩
  toNumeric v := match v with
    | .num q => .ok q
    | _ => .error ⟨some "22P02", some "invalid input syntax for type numeric"⟩
  toInt v := match v with
    | .str s =>
      if s.data ≠ [] ∧ s.data.all Char.isDigit then
        .ok (Int.ofNat (s.data.foldl (fun n c => 10 * n + (c.toNat - 48)) 0))
      else .error ⟨some "22P02", some "invalid input syntax for type integer"⟩
    | _ => .error ⟨some "22P02", some "invalid input syntax for type integer"⟩
  check _ _ := none
  fold := Char.toLower
  le a b := decide (a.data ≤ b.data)

/-- A row used in the examples. -/
def ann : Student :=
  ⟨1, some "Ann", some "Brown", some "2001-02-03", some "ann@uni.edu", some "Main St 1", some 80⟩

/-- Another row used in the examples. -/
def zoe : Student :=
  ⟨2, some "Zoe", some "Adams", none, some "zoe@uni.edu", none, none⟩

/-- The field is missing or empty, in the words of the specification: it is
absent from the payload, `null`, or the empty string. -/
def missingOrEmpty (v : JsVal) : Prop :=
  v = none ∨ v = some .null ∨ v = some (.str "")

/-- Error text of the validation failure of `POST /api/students`. -/
def createRejected : Response :=
  ⟨400, .error (some "First name, last name and email are required")⟩

/-- Binding of the parameters that `putStudent id body` sends. -/
def bindPut (E : Engine) (id : String) (body : Body) : Except PgError UpdateParams :=
  bindUpdate E (body.field "FName") (body.field "Lname") (body.field "dob")
    (body.field "Email") (body.field "Address") (body.field "enrollment_score")
    (some (.str id))

/-- The table a successful `UPDATE` with bound parameters `b` leaves. -/
def updatedTable (b : UpdateParams) (table : List Student) : List Student :=
  table.map fun r => if whereId b r then setClause b r else r

/-- Row `r2` keeps, from row `r1`, the id and every field the payload does not
mention. -/
def keepsUnmentioned (body : Body) (r1 r2 : Student) : Prop :=
  r2.studentid = r1.studentid ∧
  (body.field "FName" = none → r2.fname = r1.fname) ∧
  (body.field "Lname" = none → r2.lname = r1.lname) ∧
  (body.field "dob" = none → r2.dob = r1.dob) ∧
  (body.field "Email" = none → r2.email = r1.email) ∧
  (body.field "Address" = none → r2.address = r1.address) ∧
  (body.field "enrollment_score" = none → r2.enrollment_score = r1.enrollment_score)

/-- Row `r2` differs from row `r1` in the email at most. -/
def sameButEmail (r1 r2 : Student) : Prop :=
  r2 = { r1 with email := r2.email }

/-- A payload that sets the email to null. -/
def nullEmailPayload : Body :=
  .object [("Email", .null)]

/-- A payload that sets the email and the score and gives null as address. -/
def emailScorePayload : Body :=
  .object [("Email", .str "zoe@mail.org"), ("enrollment_score", .num 91), ("Address", .null)]

/-- The parameters of `emailScorePayload` for row 2, once bound. -/
def emailScoreParams : UpdateParams :=
  ⟨none, none, none, some "zoe@mail.org", none, some 91, some 2⟩

/-- A create payload with the number 0 as first name. -/
def zeroNamePayload : Body :=
  .object [("FName", .num 0), ("Lname", .str "Lee"), ("Email", .str "lee@uni.edu")]

/-- A create payload with the three required fields, a zero score and an empty
address. -/
def leePayload : Body :=
  .object [("FName", .str "Kim"), ("Lname", .str "Lee"), ("Email", .str "lee@uni.edu"),
    ("Address", .str ""), ("enrollment_score", .num 0)]

/-! ## Helper lemmas -/

theorem truthy_eq_false_iff (v : JsVal) :
    truthy v = false ↔
      v = none ∨ v = some .null ∨ v = some (.bool false) ∨ v = some (.num 0) ∨
        v = some (.str "") := by
  rcases v with _ | v
  · simp [truthy]
  · cases v <;> simp [truthy]

theorem jsLength_jsTrim_empty : jsLength (jsTrim "") = 0 := by decide

theorem bindParam_none {α : Type} (cast : Json → Except PgError α) :
    bindParam cast none = .ok none := rfl

theorem bindParam_null {α : Type} (cast : Json → Except PgError α) :
    bindParam cast (some .null) = .ok none := rfl

theorem bindParam_value {α : Type} (cast : Json → Except PgError α) (v : Json)
    (hv : v ≠ .null) : bindParam cast (some v) = (cast v).map some := by
  cases v <;> first | rfl | exact absurd rfl hv

theorem bindParam_ok_value {α : Type} (cast : Json → Except PgError α) (v : Json)
    (hv : v ≠ .null) (x : Option α) (h : bindParam cast (some v) = .ok x) :
    ∃ a, cast v = .ok a ∧ x = some a := by
  rw [bindParam_value cast v hv] at h
  cases hc : cast v with
  | error e => simp [hc, Except.map] at h
  | ok a =>
    simp [hc, Except.map] at h
    exact ⟨a, rfl, h.symm⟩

theorem bindUpdate_ok {E : Engine} {p1 p2 p3 p4 p5 p6 p7 : JsVal} {b : UpdateParams}
    (h : bindUpdate E p1 p2 p3 p4 p5 p6 p7 = .ok b) :
    bindParam E.toText p1 = .ok b.first_name ∧ bindParam E.toText p2 = .ok b.last_name ∧
    bindParam E.toDate p3 = .ok b.dob ∧ bindParam E.toText p4 = .ok b.email ∧
    bindParam E.toText p5 = .ok b.address ∧
    bindParam E.toNumeric p6 = .ok b.enrollment_score ∧
    bindParam E.toInt p7 = .ok b.student_id := by
  unfold bindUpdate at h
  cases h1 : bindParam E.toText p1 <;> simp only [h1, bind, Except.bind] at h
  · exact absurd h (by simp)
  cases h2 : bindParam E.toText p2 <;> simp only [h2] at h
  · exact absurd h (by simp)
  cases h3 : bindParam E.toDate p3 <;> simp only [h3] at h
  · exact absurd h (by simp)
  cases h4 : bindParam E.toText p4 <;> simp only [h4] at h
  · exact absurd h (by simp)
  cases h5 : bindParam E.toText p5 <;> simp only [h5] at h
  · exact absurd h (by simp)
  cases h6 : bindParam E.toNumeric p6 <;> simp only [h6] at h
  · exact absurd h (by simp)
  cases h7 : bindParam E.toInt p7 <;> simp only [h7] at h
  · exact absurd h (by simp)
  simp only [pure, Except.pure, Except.ok.injEq] at h
  subst h
  simp

/-- The ways `PUT /api/students/:id` can end on a table: either the table is
untouched and the answer is not a 200 with a record, or the parameters were
bound, the constraint check passed and the `SET` clause was applied to the rows
the `WHERE` clause selects. -/
theorem putStudentOn_cases (E : Engine) (table : List Student) (id : String) (body : Body) :
    ((putStudentOn E table id body).2 = table ∧
      ∀ row, (putStudentOn E table id body).1 ≠ some ⟨200, .student (some row)⟩) ∨
    ∃ b, body.keyCount ≠ 0 ∧ bindPut E id body = .ok b ∧
      E.check table (updatedTable b table) = none ∧
      (putStudentOn E table id body).2 = updatedTable b table ∧
      (putStudentOn E table id body).1 =
        some (if ((table.filter (whereId b)).map (setClause b)).length = 0
          then ⟨404, .error (some "Student not found")⟩
          else ⟨200, .student ((table.filter (whereId b)).map (setClause b)).head?⟩) := by
  by_cases hk : body.keyCount = 0
  · left
    simp [putStudentOn, putStudent, hk, Handler.immediate]
  · cases hb : bindPut E id body with
    | error err =>
      left
      unfold bindPut at hb
      by_cases hc : err.code = some "23505" <;>
        simp [putStudentOn, putStudent, hk, execUpdate, hb, hc]
    | ok b =>
      unfold bindPut at hb
      cases hch : E.check table (updatedTable b table) with
      | some err =>
        left
        unfold updatedTable at hch
        by_cases hc : err.code = some "23505" <;>
          simp [putStudentOn, putStudent, hk, execUpdate, hb, hch, hc]
      | none =>
        right
        refine ⟨b, hk, rfl, hch, ?_, ?_⟩
        · unfold updatedTable at hch
          simp [putStudentOn, putStudent, hk, execUpdate, hb, hch, updatedTable]
        · unfold updatedTable at hch
          simp [putStudentOn, putStudent, hk, execUpdate, hb, hch]

theorem putStudentOn_ok (E : Engine) (table : List Student) (id : String) (body : Body)
    (b : UpdateParams) (hk : body.keyCount ≠ 0) (hb : bindPut E id body = .ok b)
    (hch : E.check table (updatedTable b table) = none) :
    putStudentOn E table id body =
      (some (if ((table.filter (whereId b)).map (setClause b)).length = 0
          then ⟨404, .error (some "Student not found")⟩
          else ⟨200, .student ((table.filter (whereId b)).map (setClause b)).head?⟩),
        updatedTable b table) := by
  unfold bindPut at hb
  unfold updatedTable at hch
  simp [putStudentOn, putStudent, hk, execUpdate, hb, hch, updatedTable]

theorem filter_primary_key (table : List Student) (r : Student)
    (hpk : (table.map Student.studentid).Nodup) (hr : r ∈ table) :
    table.filter (fun x => decide (x.studentid = r.studentid)) = [r] := by
  induction table with
  | nil => simp at hr
  | cons a t ih =>
    simp only [List.map_cons, List.nodup_cons, List.mem_map, not_exists, not_and] at hpk
    obtain ⟨hfresh, hnd⟩ := hpk
    rcases List.mem_cons.mp hr with h | h
    · subst h
      have hnone : t.filter (fun x => decide (x.studentid = r.studentid)) = [] := by
        rw [List.filter_eq_nil_iff]
        intro x hx
        simpa using hfresh x hx
      simp [List.filter_cons, hnone]
    · have hne : a.studentid ≠ r.studentid := fun e => hfresh r h e.symm
      simp [List.filter_cons, hne, ih hnd h]

theorem coalesce_none {α : Type} (x : Option α) : coalesce none x = x := by
  cases x <;> rfl

theorem keepsUnmentioned_refl (body : Body) (r : Student) : keepsUnmentioned body r r := by
  simp [keepsUnmentioned]

theorem keepsUnmentioned_setClause (E : Engine) (id : String) (body : Body)
    (b : UpdateParams) (hb : bindPut E id body = .ok b) (r : Student) :
    keepsUnmentioned body r (setClause b r) := by
  obtain ⟨h1, h2, h3, h4, h5, h6, _⟩ := bindUpdate_ok hb
  refine ⟨rfl, ?_, ?_, ?_, ?_, ?_, ?_⟩
  · intro h
    rw [h, bindParam_none] at h1
    have : b.first_name = none := by simpa using h1.symm
    simp [setClause, this, coalesce_none]
  · intro h
    rw [h, bindParam_none] at h2
    have : b.last_name = none := by simpa using h2.symm
    simp [setClause, this, coalesce_none]
  · intro h
    rw [h, bindParam_none] at h3
    have : b.dob = none := by simpa using h3.symm
    simp [setClause, this, coalesce_none]
  · intro h
    rw [h, bindParam_none] at h4
    have : b.email = none := by simpa using h4.symm
    simp [setClause, this, coalesce_none]
  · intro h
    rw [h, bindParam_none] at h5
    have : b.address = none := by simpa using h5.symm
    simp [setClause, this, coalesce_none]
  · intro h
    rw [h, bindParam_none] at h6
    have : b.enrollment_score = none := by simpa using h6.symm
    simp [setClause, this, coalesce_none]

theorem keepsUnmentioned_email_only (v : Json) (r1 r2 : Student)
    (h : keepsUnmentioned (.object [("Email", v)]) r1 r2) : sameButEmail r1 r2 := by
  obtain ⟨h0, h1, h2, h3, _, h5, h6⟩ := h
  have e1 := h1 (by simp [Body.field, List.lookup])
  have e2 := h2 (by simp [Body.field, List.lookup])
  have e3 := h3 (by simp [Body.field, List.lookup])
  have e5 := h5 (by simp [Body.field, List.lookup])
  have e6 := h6 (by simp [Body.field, List.lookup])
  cases r1
  cases r2
  simp_all [sameButEmail]

/-! ### Pattern matching -/

theorem likeMatch_nil (fold : Char → Char) (t : List Char) :
    likeMatch fold [] t = t.isEmpty := rfl

theorem likeMatch_cons (fold : Char → Char) (c : Char) (p t : List Char) :
    likeMatch fold (c :: p) t =
      if c = likeAny then t.tails.any fun s => likeMatch fold p s
      else if c = likeOne then
        match t with
        | [] => false
        | _ :: t' => likeMatch fold p t'
      else if c = likeEscape then
        match p, t with
        | d :: p', x :: t' => fold d == fold x && likeMatch fold p' t'
        | _, _ => false
      else
        match t with
        | [] => false
        | x :: t' => fold c == fold x && likeMatch fold p t' := by
  cases p <;> cases t <;> rfl

theorem likeMatch_any (fold : Char → Char) (p t : List Char) :
    likeMatch fold (likeAny :: p) t = t.tails.any fun s => likeMatch fold p s := by
  rw [likeMatch_cons, if_pos rfl]

theorem likeMatch_literal (fold : Char → Char) (c : Char) (p t : List Char)
    (hc : c ≠ likeAny ∧ c ≠ likeOne ∧ c ≠ likeEscape) :
    likeMatch fold (c :: p) t =
      match t with
      | [] => false
      | x :: t' => fold c == fold x && likeMatch fold p t' := by
  obtain ⟨h1, h2, h3⟩ := hc
  rw [likeMatch_cons, if_neg h1, if_neg h2, if_neg h3]

/-- A wildcard-free name followed by `%` matches the texts that begin with the
name, case folded. -/
theorem likeMatch_literals_any (fold : Char → Char) (p : List Char) (hp : wildcardFree p)
    (t : List Char) :
    likeMatch fold (p ++ [likeAny]) t = true ↔ p.map fold <+: t.map fold := by
  induction p generalizing t with
  | nil =>
    simp only [List.nil_append, likeMatch_any, List.any_eq_true, List.map_nil,
      List.nil_prefix, iff_true]
    exact ⟨[], (List.mem_tails _ _).mpr (List.nil_suffix), rfl⟩
  | cons c p ih =>
    have hc := hp c (List.mem_cons_self c p)
    have hp2 : wildcardFree p := fun d hd => hp d (List.mem_cons_of_mem c hd)
    rw [List.cons_append, likeMatch_literal fold c _ t hc]
    cases t with
    | nil => simp
    | cons x t =>
      simp only [Bool.and_eq_true, beq_iff_eq, List.map_cons, List.cons_prefix_cons, ih hp2 t]

/-- A wildcard-free name between two `%` matches the texts in which the name
occurs, case folded. -/
theorem likeMatch_contains (fold : Char → Char) (p : List Char) (hp : wildcardFree p)
    (t : List Char) :
    likeMatch fold (likeAny :: (p ++ [likeAny])) t = true ↔ containsFolded fold p t := by
  rw [likeMatch_any, List.any_eq_true, containsFolded, List.infix_iff_prefix_suffix]
  constructor
  · rintro ⟨s, hs, hm⟩
    rw [List.mem_tails] at hs
    exact ⟨s.map fold, (likeMatch_literals_any fold p hp s).mp hm, hs.map fold⟩
  · rintro ⟨u, hpu, pre, hu⟩
    obtain ⟨l1, l2, rfl, _, rfl⟩ := List.map_eq_append_iff.mp hu.symm
    exact ⟨l2, (List.mem_tails _ _).mpr (List.suffix_append l1 l2),
      (likeMatch_literals_any fold p hp l2).mpr hpu⟩

theorem pattern_data (name : String) :
    ("%" ++ name ++ "%").data = likeAny :: (name.data ++ [likeAny]) := by
  simp only [String.data_append]
  rfl

/-- For a wildcard-free name the `WHERE` clause of the search selects the rows
in whose first or last name the name occurs. -/
theorem whereName_iff_nameOccurs (E : Engine) (name : String)
    (hname : wildcardFree name.data) (r : Student) :
    whereName E ("%" ++ name ++ "%") r = true ↔ nameOccurs E name r := by
  have hcol : ∀ column : Option String, ilike E column ("%" ++ name ++ "%") = true ↔
      ∃ text, column = some text ∧ containsFolded E.fold name.data text.data := by
    intro column
    cases column with
    | none => simp [ilike]
    | some text =>
      simp only [ilike, pattern_data, likeMatch_contains E.fold name.data hname,
        Option.some.injEq, exists_eq_left']
  simp only [whereName, Bool.or_eq_true, hcol, nameOccurs]

/-! ### Ordering -/

theorem columnLe_total (E : Engine) (htotal : ∀ a b, E.le a b = true ∨ E.le b a = true)
    (x y : Option String) : columnLe E x y = true ∨ columnLe E y x = true := by
  cases x <;> cases y <;> simp [columnLe, htotal]

theorem columnLe_trans (E : Engine)
    (htrans : ∀ a b c, E.le a b = true → E.le b c = true → E.le a c = true)
    (x y z : Option String) (h1 : columnLe E x y = true) (h2 : columnLe E y z = true) :
    columnLe E x z = true := by
  cases x <;> cases y <;> cases z <;> simp_all [columnLe]
  exact htrans _ _ _ h1 h2

theorem orderBy_iff (E : Engine) (a b : Student) :
    orderBy E a b = true ↔
      (columnLe E a.lname b.lname = true ∧ columnLe E b.lname a.lname = true ∧
        columnLe E a.fname b.fname = true) ∨
      (columnLe E a.lname b.lname = true ∧ ¬ columnLe E b.lname a.lname = true) := by
  unfold orderBy
  cases columnLe E a.lname b.lname <;> cases columnLe E b.lname a.lname <;> simp

theorem orderBy_total (E : Engine) (htotal : ∀ a b, E.le a b = true ∨ E.le b a = true)
    (a b : Student) : orderBy E a b = true ∨ orderBy E b a = true := by
  rw [orderBy_iff, orderBy_iff]
  have h1 := columnLe_total E htotal a.lname b.lname
  have h2 := columnLe_total E htotal a.fname b.fname
  tauto

theorem orderBy_trans (E : Engine)
    (htrans : ∀ a b c, E.le a b = true → E.le b c = true → E.le a c = true)
    (a b c : Student) (hab : orderBy E a b = true) (hbc : orderBy E b c = true) :
    orderBy E a c = true := by
  rw [orderBy_iff] at hab hbc ⊢
  have t1 := columnLe_trans E htrans a.lname b.lname c.lname
  have t2 := columnLe_trans E htrans c.lname a.lname b.lname
  have t3 := columnLe_trans E htrans b.lname c.lname a.lname
  have t4 := columnLe_trans E htrans c.lname b.lname a.lname
  have t5 := columnLe_trans E htrans a.fname b.fname c.fname
  tauto

/-- The rows the search statement returns: the first 50 of the selected rows
in order. -/
theorem execSearch_rows (E : Engine) (table : List Student) (pattern : String) :
    execSearch E table [some (.str pattern)] =
      .ok ⟨((table.filter (whereName E pattern)).insertionSort
          (fun a b => orderBy E a b = true)).take 50,
        (((table.filter (whereName E pattern)).insertionSort
          (fun a b => orderBy E a b = true)).take 50).length⟩ := rfl

theorem searchStudentsOn_valid (E : Engine) (table : List Student) (s : String)
    (hlen : 2 ≤ jsLength (jsTrim s)) :
    searchStudentsOn E table (some (.str s)) =
      some ⟨200, .students (((table.filter (whereName E ("%" ++ jsTrim s ++ "%"))).insertionSort
          (fun a b => orderBy E a b = true)).take 50)⟩ := by
  have hne : s ≠ "" := by
    intro h0
    subst h0
    rw [jsLength_jsTrim_empty] at hlen
    omega
  have h2 : ¬ jsLength (jsTrim s) < 2 := by omega
  simp [searchStudentsOn, searchStudents, hne, h2, execSearch_rows]

/-! ## Validation of the requests -/

/-- C3: a partial update whose payload has no keys is answered 400 without any
statement being sent, whatever the id and the table, and the table stays as it
was; a payload with at least one key always sends the `UPDATE` statement. -/
theorem putStudent_empty_payload (E : Engine) (table : List Student) (id : String)
    (body : Body) :
    (body.keyCount = 0 →
      putStudent id body = .respond ⟨400, .error (some "No fields provided to update")⟩ ∧
      (putStudent id body).issuesQuery = false ∧
      putStudentOn E table id body =
        (some ⟨400, .error (some "No fields provided to update")⟩, table)) ∧
    (body.keyCount ≠ 0 →
      (putStudent id body).issuesQuery = true ∧
      (putStudent id body).statement = some (.updateStudent,
        [body.field "FName", body.field "Lname", body.field "dob", body.field "Email",
          body.field "Address", body.field "enrollment_score", some (.str id)])) := by
  constructor
  · intro h
    simp [putStudent, putStudentOn, h, Handler.issuesQuery, Handler.immediate]
  · intro h
    simp [putStudent, h, Handler.issuesQuery, Handler.statement]

/-- C4: the search is answered 400 without any statement being sent exactly
when `name` is absent or its trimmed length is below 2, and the statement is
sent exactly when `name` is a string of trimmed length at least 2; so `""` and
`"a"` are rejected and `"an"` is searched for. -/
theorem searchStudents_validation (name : Option QueryVal) :
    ((searchStudents name).immediate =
        some ⟨400, .error (some "Name query parameter is required (min 2 characters)")⟩ ↔
      name = none ∨ ∃ s, name = some (.str s) ∧ jsLength (jsTrim s) < 2) ∧
    ((∃ res, (searchStudents name).immediate = some res ∧ res.status = 400) ↔
      name = none ∨ ∃ s, name = some (.str s) ∧ jsLength (jsTrim s) < 2) ∧
    ((searchStudents name).issuesQuery = true ↔
      ∃ s, name = some (.str s) ∧ 2 ≤ jsLength (jsTrim s)) ∧
    (searchStudents (some (.str ""))).issuesQuery = false ∧
    (searchStudents (some (.str "a"))).issuesQuery = false ∧
    (searchStudents (some (.str "an"))).issuesQuery = true := by
  have hs : ∀ s : String, jsLength (jsTrim s) < 2 →
      searchStudents (some (.str s)) =
        .respond ⟨400, .error (some "Name query parameter is required (min 2 characters)")⟩ := by
    intro s h
    simp [searchStudents, h]
  have hq : ∀ s : String, ¬ jsLength (jsTrim s) < 2 →
      (searchStudents (some (.str s))).issuesQuery = true ∧
        (searchStudents (some (.str s))).immediate = none := by
    intro s h
    have hne : s ≠ "" := by
      intro h0
      subst h0
      rw [jsLength_jsTrim_empty] at h
      omega
    simp [searchStudents, h, hne, Handler.issuesQuery, Handler.immediate]
  refine ⟨?_, ?_, ?_, by decide, by decide, by decide⟩
  · rcases name with _ | (s | items | members)
    · simp [searchStudents, Handler.immediate]
    · by_cases h : jsLength (jsTrim s) < 2
      · simp [hs s h, Handler.immediate, h]
      · simp [(hq s h).2, h]
    · simp [searchStudents, Handler.immediate]
    · simp [searchStudents, Handler.immediate]
  · rcases name with _ | (s | items | members)
    · simp [searchStudents, Handler.immediate]
    · by_cases h : jsLength (jsTrim s) < 2
      · simp [hs s h, Handler.immediate, h]
      · simp [(hq s h).2, h]
    · simp [searchStudents, Handler.immediate]
    · simp [searchStudents, Handler.immediate]
  · rcases name with _ | (s | items | members)
    · simp [searchStudents, Handler.issuesQuery]
    · by_cases h : jsLength (jsTrim s) < 2
      · have h2 : ¬ 2 ≤ jsLength (jsTrim s) := by omega
        simp [hs s h, Handler.issuesQuery, h2]
      · have h2 : 2 ≤ jsLength (jsTrim s) := by omega
        simp [(hq s h).1, h2]
    · simp [searchStudents, Handler.issuesQuery]
    · simp [searchStudents, Handler.issuesQuery]

/-! ## Partial update on a table -/

/-- C1, counterexample: a payload that supplies `Email` as null is answered 200
with a record that still has the stored email, and the table is unchanged. -/
theorem putStudent_null_keeps_stored :
    nullEmailPayload.field "Email" = some .null ∧
    putStudentOn sampleEngine [ann, zoe] "2" nullEmailPayload =
      (some ⟨200, .student (some zoe)⟩, [ann, zoe]) ∧
    zoe.email = some "zoe@uni.edu" :=
  ⟨rfl, by decide, rfl⟩

/-- C1, amended: for an existing student and a payload with at least one key,
when storage accepts the parameters and raises no constraint failure, the
answer is 200 with the updated record, and in that record each of the fields
`FName`, `Lname`, `dob`, `Email`, `Address`, `enrollment_score` that the
payload supplies with a value other than null holds that value as converted to
the column type, while a field supplied as null keeps its stored value. -/
theorem putStudent_replaces (E : Engine) (table : List Student) (id : String) (body : Body)
    (b : UpdateParams) (r : Student)
    (hkeys : body.keyCount ≠ 0)
    (hbind : bindPut E id body = .ok b)
    (hcheck : E.check table (updatedTable b table) = none)
    (hpk : (table.map Student.studentid).Nodup)
    (hr : r ∈ table)
    (hid : E.toInt (.str id) = .ok r.studentid) :
    ∃ row,
      putStudentOn E table id body =
        (some ⟨200, .student (some row)⟩, updatedTable b table) ∧
      row ∈ updatedTable b table ∧
      row.studentid = r.studentid ∧
      (∀ v, body.field "FName" = some v → v ≠ .null →
        ∃ s, E.toText v = .ok s ∧ row.fname = some s) ∧
      (∀ v, body.field "Lname" = some v → v ≠ .null →
        ∃ s, E.toText v = .ok s ∧ row.lname = some s) ∧
      (∀ v, body.field "dob" = some v → v ≠ .null →
        ∃ d, E.toDate v = .ok d ∧ row.dob = some d) ∧
      (∀ v, body.field "Email" = some v → v ≠ .null →
        ∃ s, E.toText v = .ok s ∧ row.email = some s) ∧
      (∀ v, body.field "Address" = some v → v ≠ .null →
        ∃ s, E.toText v = .ok s ∧ row.address = some s) ∧
      (∀ v, body.field "enrollment_score" = some v → v ≠ .null →
        ∃ q, E.toNumeric v = .ok q ∧ row.enrollment_score = some q) ∧
      (body.field "FName" = some .null → row.fname = r.fname) ∧
      (body.field "Lname" = some .null → row.lname = r.lname) ∧
      (body.field "dob" = some .null → row.dob = r.dob) ∧
      (body.field "Email" = some .null → row.email = r.email) ∧
      (body.field "Address" = some .null → row.address = r.address) ∧
      (body.field "enrollment_score" = some .null →
        row.enrollment_score = r.enrollment_score) := by
  obtain ⟨h1, h2, h3, h4, h5, h6, h7⟩ := bindUpdate_ok hbind
  have hsid : b.student_id = some r.studentid := by
    obtain ⟨a, ha, hx⟩ := bindParam_ok_value E.toInt (.str id) (by simp) _ h7
    rw [hid] at ha
    cases ha
    exact hx
  have hw : whereId b = fun x => decide (x.studentid = r.studentid) := by
    funext x
    by_cases hx : x.studentid = r.studentid
    · simp [whereId, hsid, hx]
    · have hx2 : ¬ r.studentid = x.studentid := fun e => hx e.symm
      simp [whereId, hsid, hx, hx2]
  have hrows : table.filter (whereId b) = [r] := by
    rw [hw]
    exact filter_primary_key table r hpk hr
  refine ⟨setClause b r, ?_, ?_, rfl, ?_, ?_, ?_, ?_, ?_, ?_, ?_, ?_, ?_, ?_, ?_, ?_⟩
  · rw [putStudentOn_ok E table id body b hkeys hbind hcheck, hrows]
    simp
  · refine List.mem_map.mpr ⟨r, hr, ?_⟩
    simp [hw]
  · intro v hv hn
    rw [hv] at h1
    obtain ⟨a, ha, hx⟩ := bindParam_ok_value _ v hn _ h1
    exact ⟨a, ha, by simp [setClause, hx, coalesce]⟩
  · intro v hv hn
    rw [hv] at h2
    obtain ⟨a, ha, hx⟩ := bindParam_ok_value _ v hn _ h2
    exact ⟨a, ha, by simp [setClause, hx, coalesce]⟩
  · intro v hv hn
    rw [hv] at h3
    obtain ⟨a, ha, hx⟩ := bindParam_ok_value _ v hn _ h3
    exact ⟨a, ha, by simp [setClause, hx, coalesce]⟩
  · intro v hv hn
    rw [hv] at h4
    obtain ⟨a, ha, hx⟩ := bindParam_ok_value _ v hn _ h4
    exact ⟨a, ha, by simp [setClause, hx, coalesce]⟩
  · intro v hv hn
    rw [hv] at h5
    obtain ⟨a, ha, hx⟩ := bindParam_ok_value _ v hn _ h5
    exact ⟨a, ha, by simp [setClause, hx, coalesce]⟩
  · intro v hv hn
    rw [hv] at h6
    obtain ⟨a, ha, hx⟩ := bindParam_ok_value _ v hn _ h6
    exact ⟨a, ha, by simp [setClause, hx, coalesce]⟩
  · intro hv
    rw [hv, bindParam_null] at h1
    have : b.first_name = none := by simpa using h1.symm
    simp [setClause, this, coalesce_none]
  · intro hv
    rw [hv, bindParam_null] at h2
    have : b.last_name = none := by simpa using h2.symm
    simp [setClause, this, coalesce_none]
  · intro hv
    rw [hv, bindParam_null] at h3
    have : b.dob = none := by simpa using h3.symm
    simp [setClause, this, coalesce_none]
  · intro hv
    rw [hv, bindParam_null] at h4
    have : b.email = none := by simpa using h4.symm
    simp [setClause, this, coalesce_none]
  · intro hv
    rw [hv, bindParam_null] at h5
    have : b.address = none := by simpa using h5.symm
    simp [setClause, this, coalesce_none]
  · intro hv
    rw [hv, bindParam_null] at h6
    have : b.enrollment_score = none := by simpa using h6.symm
    simp [setClause, this, coalesce_none]

/-- C1, witness: row 2 of a two-row table receives a new email and a new score
and keeps its address, which the payload supplies as null. -/
theorem putStudent_replaces_witness :
    ∃ row,
      putStudentOn sampleEngine [ann, zoe] "2" emailScorePayload =
        (some ⟨200, .student (some row)⟩, updatedTable emailScoreParams [ann, zoe]) ∧
      row.email = some "zoe@mail.org" ∧ row.enrollment_score = some 91 ∧
      row.address = zoe.address := by
  obtain ⟨row, h, _, _, _, _, _, he, _, hs, _, _, _, _, ha, _⟩ :=
    putStudent_replaces sampleEngine [ann, zoe] "2" emailScorePayload emailScoreParams zoe
      (by decide) rfl rfl (by decide) (by decide) rfl
  refine ⟨row, h, ?_, ?_, ha rfl⟩
  · obtain ⟨s, hs1, hs2⟩ := he (.str "zoe@mail.org") rfl (by simp)
    simp only [sampleEngine, Except.ok.injEq] at hs1
    rw [hs2, hs1]
  · obtain ⟨q, hq1, hq2⟩ := hs (.num 91) rfl (by simp)
    simp only [sampleEngine, Except.ok.injEq] at hq1
    rw [hq2, hq1]

/-- C2: whatever the table, the id, the payload and the outcome of the
request, every row of the table keeps its id and every field the payload does
not mention, and so does the record a 200 answer returns; in particular a
payload containing only `Email` changes nothing but the email. -/
theorem putStudent_keeps_unmentioned (E : Engine) (table : List Student) (id : String)
    (body : Body) :
    List.Forall₂ (keepsUnmentioned body) table (putStudentOn E table id body).2 ∧
    (∀ row, (putStudentOn E table id body).1 = some ⟨200, .student (some row)⟩ →
      ∃ r ∈ table, keepsUnmentioned body r row) ∧
    (∀ v, body = .object [("Email", v)] →
      List.Forall₂ sameButEmail table (putStudentOn E table id body).2 ∧
      ∀ row, (putStudentOn E table id body).1 = some ⟨200, .student (some row)⟩ →
        ∃ r ∈ table, sameButEmail r row) := by
  have hall : List.Forall₂ (keepsUnmentioned body) table (putStudentOn E table id body).2 := by
    rcases putStudentOn_cases E table id body with ⟨h, _⟩ | ⟨b, _, hb, _, h, _⟩
    · rw [h, List.forall₂_same]
      exact fun r _ => keepsUnmentioned_refl body r
    · rw [h, updatedTable, List.forall₂_map_right_iff, List.forall₂_same]
      intro r _
      by_cases hw : whereId b r = true
      · simp only [hw, if_true]
        exact keepsUnmentioned_setClause E id body b hb r
      · simp only [hw]
        exact keepsUnmentioned_refl body r
  have hrow : ∀ row, (putStudentOn E table id body).1 = some ⟨200, .student (some row)⟩ →
      ∃ r ∈ table, keepsUnmentioned body r row := by
    intro row hres
    rcases putStudentOn_cases E table id body with ⟨_, h⟩ | ⟨b, _, hb, _, _, h⟩
    · exact absurd hres (h row)
    · rw [h] at hres
      by_cases h0 : ((table.filter (whereId b)).map (setClause b)).length = 0
      · simp [h0] at hres
      · simp only [h0, if_false, Option.some.injEq, Response.mk.injEq, ResBody.student.injEq,
          true_and] at hres
        have hm := List.mem_of_mem_head? hres
        obtain ⟨r, hr, rfl⟩ := List.mem_map.mp hm
        exact ⟨r, (List.mem_filter.mp hr).1, keepsUnmentioned_setClause E id body b hb r⟩
  refine ⟨hall, hrow, ?_⟩
  intro v hv
  subst hv
  refine ⟨hall.imp (fun r1 r2 h => keepsUnmentioned_email_only v r1 r2 h), ?_⟩
  intro row hres
  obtain ⟨r, hr, h⟩ := hrow row hres
  exact ⟨r, hr, keepsUnmentioned_email_only v _ _ h⟩

/-- C6, counterexample: the payload whose `FName` is the number 0 has all three
required fields present, none of them null or an empty string, and is still
answered 400 without a statement. -/
theorem postStudent_rejects_zero_name :
    (postStudent zeroNamePayload).immediate = some createRejected ∧
    (postStudent zeroNamePayload).issuesQuery = false ∧
    ¬ (missingOrEmpty (zeroNamePayload.field "FName") ∨
        missingOrEmpty (zeroNamePayload.field "Lname") ∨
        missingOrEmpty (zeroNamePayload.field "Email")) := by
  refine ⟨?_, ?_, ?_⟩
  · simp [postStudent, zeroNamePayload, Body.field, List.lookup, truthy, Handler.immediate,
      createRejected]
  · simp [postStudent, zeroNamePayload, Body.field, List.lookup, truthy, Handler.issuesQuery]
  · simp [missingOrEmpty, zeroNamePayload, Body.field, List.lookup]

/-- C6, amended: create is answered 400 without a statement exactly when
`FName`, `Lname` or `Email` is falsy (absent, null, false, zero or the empty
string); when all three are truthy the `INSERT` is sent with those three values
unchanged and with null for each of `dob`, `Address`, `enrollment_score` that
is absent from the payload. -/
theorem postStudent_validation (body : Body) :
    ((postStudent body).immediate = some createRejected ↔
      truthy (body.field "FName") = false ∨ truthy (body.field "Lname") = false ∨
        truthy (body.field "Email") = false) ∧
    ((postStudent body).issuesQuery = false ↔
      truthy (body.field "FName") = false ∨ truthy (body.field "Lname") = false ∨
        truthy (body.field "Email") = false) ∧
    (truthy (body.field "FName") = true → truthy (body.field "Lname") = true →
      truthy (body.field "Email") = true →
      ∃ p3 p5 p6,
        (postStudent body).statement = some (.insertStudent,
          [body.field "FName", body.field "Lname", p3, body.field "Email", p5, p6]) ∧
        (body.field "dob" = none → p3 = some .null) ∧
        (body.field "Address" = none → p5 = some .null) ∧
        (body.field "enrollment_score" = none → p6 = some .null)) := by
  refine ⟨?_, ?_, ?_⟩
  · cases hF : truthy (body.field "FName") <;> cases hL : truthy (body.field "Lname") <;>
      cases hE : truthy (body.field "Email") <;>
      simp [postStudent, hF, hL, hE, Handler.immediate, createRejected]
  · cases hF : truthy (body.field "FName") <;> cases hL : truthy (body.field "Lname") <;>
      cases hE : truthy (body.field "Email") <;>
      simp [postStudent, hF, hL, hE, Handler.issuesQuery]
  · intro hF hL hE
    refine ⟨orNull (body.field "dob"), orNull (body.field "Address"),
      orNull (body.field "enrollment_score"), ?_, ?_, ?_, ?_⟩
    · simp [postStudent, hF, hL, hE, Handler.statement]
    · intro h
      simp [h, orNull, truthy]
    · intro h
      simp [h, orNull, truthy]
    · intro h
      simp [h, orNull, truthy]

/-- C10: for a create payload that passes validation, the parameter sent for
each of `dob`, `Address`, `enrollment_score` is the supplied value when that
value is truthy and null otherwise; a score of 0 and an empty address are sent
as null, as an absent field is. -/
theorem postStudent_optional_fields (body : Body)
    (hF : truthy (body.field "FName") = true) (hL : truthy (body.field "Lname") = true)
    (hE : truthy (body.field "Email") = true) :
    ∃ p3 p5 p6,
      (postStudent body).statement = some (.insertStudent,
        [body.field "FName", body.field "Lname", p3, body.field "Email", p5, p6]) ∧
      p3 = (if truthy (body.field "dob") = true then body.field "dob" else some .null) ∧
      p5 = (if truthy (body.field "Address") = true then body.field "Address"
        else some .null) ∧
      p6 = (if truthy (body.field "enrollment_score") = true then body.field "enrollment_score"
        else some .null) ∧
      (body.field "enrollment_score" = some (.num 0) → p6 = some .null) ∧
      (body.field "Address" = some (.str "") → p5 = some .null) ∧
      (body.field "dob" = none → p3 = some .null) ∧
      (body.field "Address" = none → p5 = some .null) ∧
      (body.field "enrollment_score" = none → p6 = some .null) := by
  refine ⟨orNull (body.field "dob"), orNull (body.field "Address"),
    orNull (body.field "enrollment_score"), ?_, rfl, rfl, rfl, ?_, ?_, ?_, ?_, ?_⟩
  · simp [postStudent, hF, hL, hE, Handler.statement]
  all_goals
    intro h
    simp [h, orNull, truthy]

/-- C10, witness: the payload with a zero score and an empty address. -/
theorem postStudent_optional_fields_witness :
    ∃ p3 p5 p6,
      (postStudent leePayload).statement = some (.insertStudent,
        [leePayload.field "FName", leePayload.field "Lname", p3, leePayload.field "Email",
          p5, p6]) ∧
      p3 = (if truthy (leePayload.field "dob") = true then leePayload.field "dob"
        else some .null) ∧
      p5 = (if truthy (leePayload.field "Address") = true then leePayload.field "Address"
        else some .null) ∧
      p6 = (if truthy (leePayload.field "enrollment_score") = true
        then leePayload.field "enrollment_score" else some .null) ∧
      (leePayload.field "enrollment_score" = some (.num 0) → p6 = some .null) ∧
      (leePayload.field "Address" = some (.str "") → p5 = some .null) ∧
      (leePayload.field "dob" = none → p3 = some .null) ∧
      (leePayload.field "Address" = none → p5 = some .null) ∧
      (leePayload.field "enrollment_score" = none → p6 = some .null) :=
  postStudent_optional_fields leePayload
    (by simp [leePayload, Body.field, List.lookup, truthy])
    (by simp [leePayload, Body.field, List.lookup, truthy])
    (by simp [leePayload, Body.field, List.lookup, truthy])

/-! ## Search on a table -/

/-- C5, counterexample: the name `n_` passes validation and the search returns
the student Ann Brown, in whose first and last name `n_` does not occur. -/
theorem searchStudents_wildcard_name :
    2 ≤ jsLength (jsTrim "n_") ∧
    searchStudentsOn sampleEngine [ann] (some (.str "n_")) = some ⟨200, .students [ann]⟩ ∧
    whereName sampleEngine ("%" ++ jsTrim "n_" ++ "%") ann = true ∧
    ¬ nameOccurs sampleEngine (jsTrim "n_") ann := by
  refine ⟨by decide, by decide, by decide, ?_⟩
  rintro (⟨text, h, hc⟩ | ⟨text, h, hc⟩)
  · have ht : text = "Ann" := by
      simpa [ann] using h.symm
    subst ht
    revert hc
    unfold containsFolded
    decide
  · have ht : text = "Brown" := by
      simpa [ann] using h.symm
    subst ht
    revert hc
    unfold containsFolded
    decide

/-- C5, amended: for every name that passes search validation the answer is
200 with at most 50 records, all of them rows of the table selected by
`first_name ILIKE p OR last_name ILIKE p` for the pattern `p` made of `%`, the
trimmed name and `%`; they are the first rows of the selected rows put in the
order of (lname, fname), and nothing is cut off unless 50 are returned.  When
the trimmed name contains none of `%`, `_` and the backslash, a row is selected
if and only if the trimmed name occurs, ignoring case, in its first or last
name. -/
theorem searchStudents_result (E : Engine) (table : List Student) (s : String)
    (hlen : 2 ≤ jsLength (jsTrim s))
    (htotal : ∀ a b, E.le a b = true ∨ E.le b a = true)
    (htrans : ∀ a b c, E.le a b = true → E.le b c = true → E.le a c = true) :
    ∃ rows rest,
      searchStudentsOn E table (some (.str s)) = some ⟨200, .students rows⟩ ∧
      rows.length ≤ 50 ∧
      (rest ≠ [] → rows.length = 50) ∧
      (rows ++ rest).Perm (table.filter (whereName E ("%" ++ jsTrim s ++ "%"))) ∧
      (rows ++ rest).Pairwise (fun a b => orderBy E a b = true) ∧
      (∀ r ∈ rows, r ∈ table ∧ whereName E ("%" ++ jsTrim s ++ "%") r = true) ∧
      (wildcardFree (jsTrim s).data →
        ∀ r, whereName E ("%" ++ jsTrim s ++ "%") r = true ↔ nameOccurs E (jsTrim s) r) := by
  haveI : IsTotal Student (fun a b => orderBy E a b = true) := ⟨orderBy_total E htotal⟩
  haveI : IsTrans Student (fun a b => orderBy E a b = true) := ⟨orderBy_trans E htrans⟩
  have hperm := List.perm_insertionSort (fun a b => orderBy E a b = true)
    (table.filter (whereName E ("%" ++ jsTrim s ++ "%")))
  have hsorted := List.sorted_insertionSort (fun a b => orderBy E a b = true)
    (table.filter (whereName E ("%" ++ jsTrim s ++ "%")))
  refine ⟨_, ((table.filter (whereName E ("%" ++ jsTrim s ++ "%"))).insertionSort
    (fun a b => orderBy E a b = true)).drop 50, searchStudentsOn_valid E table s hlen,
    ?_, ?_, ?_, ?_, ?_, ?_⟩
  · exact List.length_take_le 50 _
  · intro hrest
    rw [List.length_take]
    have hlt : 50 < ((table.filter (whereName E ("%" ++ jsTrim s ++ "%"))).insertionSort
        (fun a b => orderBy E a b = true)).length := by
      by_contra hge
      exact hrest (List.drop_eq_nil_of_le (by omega))
    omega
  · rw [List.take_append_drop]
    exact hperm
  · rw [List.take_append_drop]
    exact hsorted
  · intro r hr
    have hmem := hperm.subset (List.mem_of_mem_take hr)
    exact ⟨(List.mem_filter.mp hmem).1, (List.mem_filter.mp hmem).2⟩
  · intro hfree r
    exact whereName_iff_nameOccurs E (jsTrim s) hfree r

/-- C5, witness: the search for ` an ` on a two-row table. -/
theorem searchStudents_result_witness :
    2 ≤ jsLength (jsTrim " an ") ∧
    ∃ rows rest,
      searchStudentsOn sampleEngine [ann, zoe] (some (.str " an ")) =
        some ⟨200, .students rows⟩ ∧
      rows.length ≤ 50 ∧
      (rest ≠ [] → rows.length = 50) ∧
      (rows ++ rest).Perm ([ann, zoe].filter (whereName sampleEngine ("%" ++ jsTrim " an " ++ "%"))) ∧
      (rows ++ rest).Pairwise (fun a b => orderBy sampleEngine a b = true) ∧
      (∀ r ∈ rows, r ∈ [ann, zoe] ∧
        whereName sampleEngine ("%" ++ jsTrim " an " ++ "%") r = true) ∧
      (wildcardFree (jsTrim " an ").data →
        ∀ r, whereName sampleEngine ("%" ++ jsTrim " an " ++ "%") r = true ↔
          nameOccurs sampleEngine (jsTrim " an ") r) :=
  ⟨by decide,
    searchStudents_result sampleEngine [ann, zoe] " an " (by decide)
      (by
        intro a b
        have h := le_total a b
        simpa [sampleEngine, String.le_iff_toList_le] using h)
      (by
        intro a b c hab hbc
        have hab2 : a ≤ b := by
          simpa [sampleEngine, String.le_iff_toList_le] using hab
        have hbc2 : b ≤ c := by
          simpa [sampleEngine, String.le_iff_toList_le] using hbc
        have h := le_trans hab2 hbc2
        simpa [sampleEngine, String.le_iff_toList_le] using h)⟩

/-! ## Storage outcomes -/

/-- C7, counterexample: a create whose statement fails with an error other
than a unique violation and with an empty message is answered 400 with the
fixed text, which is not the message of the error. -/
theorem postStudent_empty_message :
    (postStudent leePayload).reply (.error ⟨some "ECONNREFUSED", some ""⟩) =
      some ⟨400, .error (some "Failed to create student")⟩ ∧
    ResBody.error (some "Failed to create student") ≠
      ResBody.error (PgError.mk (some "ECONNREFUSED") (some "")).message := by
  constructor
  · simp [postStudent, leePayload, Body.field, List.lookup, truthy, Handler.reply]
  · simp

/-- C7, amended: on create and on partial update a storage error with code
23505 is answered 409 and every other storage error 400, and no storage error
gets another status; the 400 of an update carries the message of the error,
the 400 of a create carries the message of the error when that message is a
non-empty string and the text `Failed to create student` when it is empty or
missing. -/
theorem write_storage_error (id : String) (body : Body) (err : PgError) :
    ((postStudent body).issuesQuery = true →
      ∃ res, (postStudent body).reply (.error err) = some res ∧
        (res.status = 409 ∨ res.status = 400) ∧
        (err.code = some "23505" → res.status = 409) ∧
        (err.code ≠ some "23505" → res.status = 400) ∧
        (err.code ≠ some "23505" → ∀ m, err.message = some m → m ≠ "" →
          res.body = .error (some m)) ∧
        (err.code ≠ some "23505" → err.message = none ∨ err.message = some "" →
          res.body = .error (some "Failed to create student"))) ∧
    ((putStudent id body).issuesQuery = true →
      ∃ res, (putStudent id body).reply (.error err) = some res ∧
        (res.status = 409 ∨ res.status = 400) ∧
        (err.code = some "23505" → res.status = 409) ∧
        (err.code ≠ some "23505" → res.status = 400) ∧
        (err.code ≠ some "23505" → res.body = .error err.message)) := by
  constructor
  · intro hq
    have hv : (!truthy (body.field "FName") || !truthy (body.field "Lname") ||
        !truthy (body.field "Email")) = false := by
      cases hF : truthy (body.field "FName") <;> cases hL : truthy (body.field "Lname") <;>
        cases hE : truthy (body.field "Email") <;>
        simp [postStudent, hF, hL, hE, Handler.issuesQuery] at hq ⊢
    rcases err with ⟨code, _ | m⟩
    · by_cases hc : code = some "23505"
      · simp [postStudent, hv, Handler.reply, hc]
      · simp [postStudent, hv, Handler.reply, hc]
    · by_cases hc : code = some "23505"
      · simp [postStudent, hv, Handler.reply, hc]
      · by_cases hm0 : m = ""
        · simp [postStudent, hv, Handler.reply, hc, hm0]
        · simp [postStudent, hv, Handler.reply, hc, hm0]
  · intro hq
    have hk : body.keyCount ≠ 0 := by
      intro h0
      simp [putStudent, h0, Handler.issuesQuery] at hq
    by_cases hc : err.code = some "23505"
    · simp [putStudent, hk, Handler.reply, hc]
    · simp [putStudent, hk, Handler.reply, hc]

/-- C8: delete always sends its statement and maps each storage outcome to one
response: 200 with a message when at least one row was removed, 404 when none
was, 409 with an explanation on a foreign-key violation (code 23503), and 500
with a fixed text on any other storage error. -/
theorem deleteStudent_outcomes (id : String) (out : Except PgError PgResult) :
    (deleteStudent id).issuesQuery = true ∧
    ∃ res, (deleteStudent id).reply out = some res ∧
      (∀ result, out = .ok result → 1 ≤ result.rowCount →
        res = ⟨200, .message "Student deleted successfully"⟩) ∧
      (∀ result, out = .ok result → result.rowCount = 0 →
        res = ⟨404, .error (some "Student not found")⟩) ∧
      (∀ err, out = .error err → err.code = some "23503" →
        res = ⟨409, .error
          (some "Cannot delete student — they are enrolled in programs or courses")⟩) ∧
      (∀ err, out = .error err → err.code ≠ some "23503" →
        res = ⟨500, .error (some "Failed to delete student")⟩) := by
  refine ⟨rfl, ?_⟩
  rcases out with err | result
  · by_cases hc : err.code = some "23503"
    · simp [deleteStudent, Handler.reply, hc]
    · simp [deleteStudent, Handler.reply, hc]
  · by_cases h0 : result.rowCount = 0
    · simp [deleteStudent, Handler.reply, h0]
    · have h1 : 1 ≤ result.rowCount := by omega
      simp [deleteStudent, Handler.reply, h0, h1]

/-- C9: on list, search and get by id the answer to a storage error is 500
with a fixed body, the same for any two storage errors. -/
theorem read_storage_error (name : Option QueryVal) (id : String) (e1 e2 : PgError) :
    getStudents.reply (.error e1) =
      some ⟨500, .error (some "Database error while fetching students")⟩ ∧
    getStudents.reply (.error e1) = getStudents.reply (.error e2) ∧
    ((searchStudents name).issuesQuery = true →
      (searchStudents name).reply (.error e1) = some ⟨500, .error (some "Search failed")⟩) ∧
    (searchStudents name).reply (.error e1) = (searchStudents name).reply (.error e2) ∧
    (getStudent id).reply (.error e1) = some ⟨500, .error (some "Database error")⟩ ∧
    (getStudent id).reply (.error e1) = (getStudent id).reply (.error e2) := by
  refine ⟨rfl, rfl, ?_, ?_, rfl, rfl⟩
  · rcases name with _ | (s | items | members)
    · simp [searchStudents, Handler.issuesQuery]
    · by_cases h : s = "" ∨ jsLength (jsTrim s) < 2
      · simp [searchStudents, h, Handler.issuesQuery]
      · simp [searchStudents, h, Handler.reply]
    · simp [searchStudents, Handler.issuesQuery]
    · simp [searchStudents, Handler.issuesQuery]
  · rcases name with _ | (s | items | members)
    · rfl
    · by_cases h : s = "" ∨ jsLength (jsTrim s) < 2
      · simp [searchStudents, h, Handler.reply]
      · simp [searchStudents, h, Handler.reply]
    · rfl
    · rfl

end StudentApi
